import Mathlib

/-!
Verification of the `pyqrcodeNG` facade (`src/__init__.py`, class `QRCode`).

Python strings are modelled as `List Char`; a value that a Python function
returns or an exception it raises is modelled by `PyResult`.  The modules
`pyqrcode.tables` and `pyqrcode.builder` are imported by the source but are
not part of the sources given, so the few pieces of them that the facade
touches are modelled from the spec (each such definition carries a doc
comment starting with "Modelled from the spec:").  Everything else is a
direct shallow embedding of `src/__init__.py`.
-/

namespace PyQR

/-- The four QR error correction levels (values of `tables.error_level`). -/
inductive ErrorLevel where
  | L
  | M
  | Q
  | H
deriving DecidableEq

/-- The four QR encoding modes (keys of `tables.modes`). -/
inductive Mode where
  | numeric
  | alphanumeric
  | binary
  | kanji
deriving DecidableEq

/-- The exceptions the constructor path can raise.  The first five are the
documented error kinds of the spec (all raised as `ValueError` with distinct
messages); `unicodeEncodeError` is Python's `UnicodeEncodeError`, which is
not one of the documented kinds but escapes from `str.encode('ascii')` in
`_pick_best_fit`. -/
inductive QRErr where
  | invalidErrorLevel
  | modeMismatch
  | unimplementedMode
  | contentTooLarge
  | userVersionTooSmall
  | unicodeEncodeError
deriving DecidableEq

/-- Outcome of a Python call: a value, or a raised exception. -/
inductive PyResult (α : Type) where
  | raise : QRErr → PyResult α
  | val : α → PyResult α
deriving DecidableEq

/-- Modelled from the spec: `tables.modes` (`tables.py` is not under the given
sources).  The spec fixes the four mode indicators 0001/0010/0100/1000
(section 4.2), so the mode numbers are distinct; the facade only ever compares
them for equality. -/
def modes : Mode → Nat
  | Mode.numeric => 1
  | Mode.alphanumeric => 2
  | Mode.binary => 4
  | Mode.kanji => 8

/-- Modelled from the spec: the keys of `tables.ascii_codes` (`tables.py` is
not under the given sources) — the QR alphanumeric table: the digits 0-9, the
upper case letters A-Z, space, and the eight symbols dollar, percent, star,
plus, minus, dot, slash, colon (spec section 4.1). -/
def ascii_codes : List Char :=
  ['0', '1', '2', '3', '4', '5', '6', '7', '8', '9',
   'A', 'B', 'C', 'D', 'E', 'F', 'G', 'H', 'I', 'J', 'K', 'L', 'M',
   'N', 'O', 'P', 'Q', 'R', 'S', 'T', 'U', 'V', 'W', 'X', 'Y', 'Z',
   ' ', '$', '%', '*', '+', '-', '.', '/', ':']

/-- Python `str.upper`, modelled on the ASCII letters (codepoints 97-122 map
down by 32, everything else is unchanged).  Python's full Unicode `upper` is
not modelled: characters with non-ASCII uppercasings that land inside the
alphanumeric table (U+0131 to 'I', U+017F to 'S', ligatures to letter pairs)
are left unchanged here, so `detect_content_type` can classify as binary some
content the program classifies as alphanumeric.  The claim theorems therefore
evaluate detection only on ASCII inputs, or take the detection outcome as a
hypothesis, and never derive it from mere non-ASCII presence. -/
def pyUpper (c : Char) : Char :=
  if 97 ≤ c.toNat ∧ c.toNat ≤ 122 then Char.ofNat (c.toNat - 32) else c

/-- Python `int(s)` acceptance, as used by the (dead, see `numeric_branch`)
numeric test: optional surrounding spaces, an optional sign, then a nonempty
run of decimal digits (digit-group underscores are omitted; the branch that
consumes this predicate is unreachable in the source, so nothing depends on
it). -/
def is_py_int (s : List Char) : Bool :=
  let t := (s.dropWhile (fun c => c = ' ')).reverse.dropWhile (fun c => c = ' ')
  let u := t.reverse
  let d := match u with
           | '+' :: rest => rest
           | '-' :: rest => rest
           | other => other
  decide (d ≠ []) && d.all (fun c => c.isDigit)

/-- The numeric test of `_detect_content_type` (src lines 142-147):
`try: test = int(content); return 'numeric'; except: pass`.  The name
`content` is not bound inside the method — it was only a parameter of
`__init__` — so evaluating `int(content)` raises `NameError`, which the bare
`except:` swallows.  We model the try-block by the optional binding for the
name `content` at that point, which is `none`; the block therefore never
produces `'numeric'`. -/
def numeric_branch (content_in_scope : Option (List Char)) : Option Mode :=
  match content_in_scope with
  | none => none
  | some s => if is_py_int s then some Mode.numeric else none

/-- `QRCode._detect_content_type` (src lines 130-156).  The numeric branch is
applied to `none` because no binding named `content` is in scope (see
`numeric_branch`); then the alphanumeric membership test over the uppercased
data, else binary. -/
def detect_content_type (data : List Char) : Mode :=
  match numeric_branch none with
  | some m => m
  | none =>
    if (data.map pyUpper).all (fun c => decide (c ∈ ascii_codes)) then
      Mode.alphanumeric
    else
      Mode.binary

/-- Modelled from the spec: the detection the spec describes (section 4.1,
and the method's own docstring): numeric when the data is parseable as a
non-negative integer — per spec section 9, "a digit string" — else the same
alphanumeric test, else binary.  This is the comparison point for the
detection actually implemented, `detect_content_type`. -/
def detect_content_type_spec (data : List Char) : Mode :=
  if decide (data ≠ []) && data.all (fun c => c.isDigit) then
    Mode.numeric
  else if (data.map pyUpper).all (fun c => decide (c ∈ ascii_codes)) then
    Mode.alphanumeric
  else
    Mode.binary

/-- Modelled from the spec: `tables.error_level` (`tables.py` is not under
the given sources).  Spec section 6: L/M/Q/H case-insensitively, plus the
percentages 7/15/25/30 and the strings "7%"/"15%"/"25%"/"30%" as aliases.
The source looks the key up after `str(error).upper()`, so the table is keyed
by the uppercased textual form (an integer argument 7 arrives as "7"). -/
def error_level : List (List Char × ErrorLevel) :=
  [("L".toList, ErrorLevel.L), ("M".toList, ErrorLevel.M),
   ("Q".toList, ErrorLevel.Q), ("H".toList, ErrorLevel.H),
   ("7".toList, ErrorLevel.L), ("15".toList, ErrorLevel.M),
   ("25".toList, ErrorLevel.Q), ("30".toList, ErrorLevel.H),
   ("7%".toList, ErrorLevel.L), ("15%".toList, ErrorLevel.M),
   ("25%".toList, ErrorLevel.Q), ("30%".toList, ErrorLevel.H)]

/-- The error-level validation of `__init__` (src lines 70-75):
`self.error = tables.error_level[str(error).upper()]`, with the `KeyError`
turned into the invalid-error-level `ValueError` by the `except` clause.
The argument is the `str()` form of the user's `error` argument. -/
def error_level_lookup (errorArg : List Char) : PyResult ErrorLevel :=
  let key := errorArg.map pyUpper
  match error_level.find? (fun p => decide (p.1 = key)) with
  | some p => PyResult.val p.2
  | none => PyResult.raise QRErr.invalidErrorLevel

/-- The mode validation of `__init__` (src lines 82-105).  `mode` is the
user's argument after `mode.lower()`, `none` when absent (or Python-falsy).
The source compares mode numbers (`tables.modes[...]`), which we mirror with
`modes`: binary-guessed content rejects every non-binary mode; an explicit
numeric mode rejects non-numeric-guessed content; everything else is
accepted. -/
def validateMode (guessed : Mode) (mode : Option Mode) : PyResult Mode :=
  match mode with
  | none => PyResult.val guessed
  | some m =>
    if guessed = Mode.binary ∧ modes m ≠ modes Mode.binary then
      PyResult.raise QRErr.modeMismatch
    else if modes m = modes Mode.numeric ∧ guessed ≠ Mode.numeric then
      PyResult.raise QRErr.modeMismatch
    else
      PyResult.val m

/-- `self.data.encode('ascii')` (src line 168): one byte per character when
every character is ASCII, otherwise Python raises `UnicodeEncodeError`. -/
def asciiEncode (data : List Char) : PyResult (List Nat) :=
  if data.all (fun c => decide (c.toNat < 128)) then
    PyResult.val (data.map Char.toNat)
  else
    PyResult.raise QRErr.unicodeEncodeError

/-- Modelled from the spec: the shape of `tables.data_capacity` (`tables.py`
is not under the given sources).  The spec fixes only its indexing — version,
error level, mode (spec sections 2 and 4.1) — not its entries, so the
development quantifies over tables of this shape. -/
def DataCapacity : Type := Nat → ErrorLevel → Mode → Nat

/-- The fit condition of one iteration of the loop in `_pick_best_fit`
(src lines 162-169): `capacity = data_capacity[version][error][mode_num]`,
then `(mode_num == modes['binary'] and capacity >= len(data.encode('ascii')))
or capacity >= len(data)`; the `and` short-circuits, so the ASCII encoding
(which may raise) is only evaluated in binary mode. -/
def fit_check (cap : DataCapacity) (error : ErrorLevel) (mode : Mode)
    (data : List Char) (v : Nat) : PyResult Bool :=
  let capacity := cap v error mode
  if modes mode = modes Mode.binary then
    match asciiEncode data with
    | PyResult.raise e => PyResult.raise e
    | PyResult.val bs =>
        PyResult.val (decide (bs.length ≤ capacity) || decide (data.length ≤ capacity))
  else
    PyResult.val (decide (data.length ≤ capacity))

/-- The `for version in range(1, 41)` loop of `_pick_best_fit`: `fuel` counts
the remaining iterations and `v` is the current version; when the iterations
are exhausted the method raises the does-not-fit `ValueError`
(src lines 162-173). -/
def pick_best_fit_loop (cap : DataCapacity) (error : ErrorLevel) (mode : Mode)
    (data : List Char) : Nat → Nat → PyResult Nat
  | 0, _ => PyResult.raise QRErr.contentTooLarge
  | fuel + 1, v =>
    match fit_check cap error mode data v with
    | PyResult.raise e => PyResult.raise e
    | PyResult.val true => PyResult.val v
    | PyResult.val false => pick_best_fit_loop cap error mode data fuel (v + 1)

/-- `QRCode._pick_best_fit` (src lines 158-173): the loop over versions
1..40. -/
def pick_best_fit (cap : DataCapacity) (error : ErrorLevel) (mode : Mode)
    (data : List Char) : PyResult Nat :=
  pick_best_fit_loop cap error mode data 40 1

/-- The payload length in the claims' sense: for binary mode the byte length
of the encoded content (0 is a placeholder for the case where the encoding
raises and no byte length exists), for the other modes the character count. -/
def payloadLength (mode : Mode) (data : List Char) : Nat :=
  match mode with
  | Mode.binary =>
    match asciiEncode data with
    | PyResult.val bs => bs.length
    | PyResult.raise _ => 0
  | _ => data.length

/-- The user-version check of `__init__` (src lines 110-119): `if version:`
(so `None` and `0` are both falsy and leave the computed minimum in place),
then `version >= self.version` keeps the user's version, else the
user-version-too-small `ValueError`. -/
def resolveVersion (computed : Nat) (version : Option Int) : PyResult Int :=
  match version with
  | none => PyResult.val computed
  | some v =>
    if v ≠ 0 then
      if (computed : Int) ≤ v then PyResult.val v
      else PyResult.raise QRErr.userVersionTooSmall
    else
      PyResult.val computed

/-- Modelled from the spec: the only facade-visible behaviour of
`builder.QRCodeBuilder` (`builder.py` is not under the given sources) that
the claims touch — "kanji fails with unimplemented" (spec sections 4.1 and 7,
error kind UnimplementedMode); for the implemented modes the builder is
modelled as succeeding.  In the source the builder is invoked last
(src lines 122-125), after mode validation and version resolution. -/
def builder_accepts (mode : Mode) : PyResult Unit :=
  if modes mode = modes Mode.kanji then PyResult.raise QRErr.unimplementedMode
  else PyResult.val ()

/-- The symbol specification a successful construction fixes: the resolved
version (an `Int`, as the user's version is stored unchecked), mode and
error level. -/
structure QRSpec where
  version : Int
  mode : Mode
  error : ErrorLevel
deriving DecidableEq

/-- `QRCode.__init__` after the error-level lookup (src lines 77-128):
content already coerced to its string form, error level already resolved.
Detection, mode validation, version selection, user-version resolution, then
the builder call. -/
def QRCode.make (cap : DataCapacity) (content : List Char) (error : ErrorLevel)
    (version : Option Int) (mode : Option Mode) : PyResult QRSpec :=
  let data := content
  let guessed := detect_content_type data
  match validateMode guessed mode with
  | PyResult.raise e => PyResult.raise e
  | PyResult.val m =>
    match pick_best_fit cap error m data with
    | PyResult.raise e => PyResult.raise e
    | PyResult.val computed =>
      match resolveVersion computed version with
      | PyResult.raise e => PyResult.raise e
      | PyResult.val v =>
        match builder_accepts m with
        | PyResult.raise e => PyResult.raise e
        | PyResult.val _ => PyResult.val ⟨v, m, error⟩

/-- `QRCode.__init__` in full (src lines 67-128): the content is coerced to
its string form (`content` is that form), the error-level lookup runs first
(src lines 70-75), then the rest of the pipeline. -/
def QRCode.init (cap : DataCapacity) (content : List Char) (errorArg : List Char)
    (version : Option Int) (mode : Option Mode) : PyResult QRSpec :=
  match error_level_lookup errorArg with
  | PyResult.raise e => PyResult.raise e
  | PyResult.val err => QRCode.make cap content err version mode

/-- Modelled from the spec: `builder._text` (`builder.py` is not under the
given sources): "returns an N-row string of 1/0 characters separated by
newlines" (spec section 6), dark modules as '1', light as '0'. -/
def builder_text : List (List Bool) → List Char
  | [] => []
  | row :: [] => row.map (fun b => if b then '1' else '0')
  | row :: rest => row.map (fun b => if b then '1' else '0') ++ '\n' :: builder_text rest

/-- `QRCode.text` (src lines 261-266): the body evaluates
`builder._text(self.code)` but contains no `return` statement, so the Python
method returns `None`.  The return value is modelled as an `Option`, with
`none` standing for Python's `None`. -/
def QRCode.textMethod (code : List (List Bool)) : Option (List Char) :=
  let _ := builder_text code
  none

/-- A concrete capacity table used to instantiate the quantified theorems at
concrete inputs: every (version, error, mode) cell holds 10·version. -/
def sampleCap : DataCapacity := fun v _ _ => 10 * v

end PyQR

namespace PyQR

/-! Helper lemmas about the embedding. -/

/-- The head of `detect_content_type` reduces: the numeric try-block never
fires (NameError swallowed), leaving the alphanumeric test. -/
theorem detect_eq_ite (data : List Char) :
    detect_content_type data =
      (if (data.map pyUpper).all (fun c => decide (c ∈ ascii_codes)) then Mode.alphanumeric
       else Mode.binary) := rfl

/-- The detection of the source can only answer alphanumeric or binary. -/
theorem detect_cases (data : List Char) :
    detect_content_type data = Mode.alphanumeric ∨ detect_content_type data = Mode.binary := by
  rw [detect_eq_ite]
  by_cases h : (data.map pyUpper).all (fun c => decide (c ∈ ascii_codes)) = true
  · left
    rw [if_pos h]
  · right
    rw [if_neg h]

theorem builder_accepts_of_ne : ∀ m : Mode, m ≠ Mode.kanji → builder_accepts m = PyResult.val ()
  | Mode.numeric, _ => rfl
  | Mode.alphanumeric, _ => rfl
  | Mode.binary, _ => rfl
  | Mode.kanji, h => absurd rfl h

theorem asciiEncode_val (data : List Char) (h : ∀ c ∈ data, c.toNat < 128) :
    asciiEncode data = PyResult.val (data.map Char.toNat) := by
  unfold asciiEncode
  rw [if_pos]
  rw [List.all_eq_true]
  intro c hc
  exact decide_eq_true (h c hc)

theorem asciiEncode_raise (data : List Char) (h : ∃ c ∈ data, 128 ≤ c.toNat) :
    asciiEncode data = PyResult.raise QRErr.unicodeEncodeError := by
  unfold asciiEncode
  rw [if_neg]
  intro hall
  rw [List.all_eq_true] at hall
  obtain ⟨c, hc, h128⟩ := h
  have hlt := hall c hc
  rw [decide_eq_true_eq] at hlt
  omega

/-- Under an all-ASCII guarantee the per-iteration fit test of the loop is
the plain capacity comparison (in binary mode the byte length equals the
character count). -/
theorem fit_check_eq_of_ascii (cap : DataCapacity) (error : ErrorLevel) (mode : Mode)
    (data : List Char) (v : Nat)
    (hascii : mode = Mode.binary → ∀ c ∈ data, c.toNat < 128) :
    fit_check cap error mode data v =
      PyResult.val (decide (data.length ≤ cap v error mode)) := by
  cases mode with
  | binary =>
    simp only [fit_check]
    rw [if_pos trivial, asciiEncode_val data (hascii rfl)]
    simp only [List.length_map, Bool.or_self]
  | numeric => rfl
  | alphanumeric => rfl
  | kanji => rfl

theorem pick_loop_step_val (cap : DataCapacity) (error : ErrorLevel) (mode : Mode)
    (data : List Char) (n v : Nat)
    (hascii : mode = Mode.binary → ∀ c ∈ data, c.toNat < 128)
    (hfit : data.length ≤ cap v error mode) :
    pick_best_fit_loop cap error mode data (n + 1) v = PyResult.val v := by
  simp only [pick_best_fit_loop, fit_check_eq_of_ascii cap error mode data v hascii,
    decide_eq_true hfit]

theorem pick_loop_step_next (cap : DataCapacity) (error : ErrorLevel) (mode : Mode)
    (data : List Char) (n v : Nat)
    (hascii : mode = Mode.binary → ∀ c ∈ data, c.toNat < 128)
    (hfit : ¬ data.length ≤ cap v error mode) :
    pick_best_fit_loop cap error mode data (n + 1) v =
      pick_best_fit_loop cap error mode data n (v + 1) := by
  simp only [pick_best_fit_loop, fit_check_eq_of_ascii cap error mode data v hascii,
    decide_eq_false hfit]

/-- The loop returns exactly the first version in its window whose capacity
fits the data. -/
theorem pick_loop_val_iff (cap : DataCapacity) (error : ErrorLevel) (mode : Mode)
    (data : List Char)
    (hascii : mode = Mode.binary → ∀ c ∈ data, c.toNat < 128) :
    ∀ fuel v w, pick_best_fit_loop cap error mode data fuel v = PyResult.val w ↔
      (v ≤ w ∧ w < v + fuel ∧ data.length ≤ cap w error mode ∧
        ∀ u, v ≤ u → u < w → ¬ data.length ≤ cap u error mode) := by
  intro fuel
  induction fuel with
  | zero =>
    intro v w
    simp only [pick_best_fit_loop]
    constructor
    · intro h
      exact PyResult.noConfusion h
    · rintro ⟨h1, h2, -, -⟩
      omega
  | succ n ih =>
    intro v w
    by_cases hfit : data.length ≤ cap v error mode
    · rw [pick_loop_step_val cap error mode data n v hascii hfit]
      constructor
      · intro h
        have hvw : v = w := by injection h
        subst hvw
        refine ⟨Nat.le_refl v, by omega, hfit, ?_⟩
        intro u h1 h2
        exact absurd h2 (by omega)
      · rintro ⟨h1, h2, h3, h4⟩
        have hvw : v = w := by
          by_contra hne
          exact h4 v (Nat.le_refl v) (Nat.lt_of_le_of_ne h1 hne) hfit
        rw [hvw]
    · rw [pick_loop_step_next cap error mode data n v hascii hfit]
      rw [ih (v + 1) w]
      constructor
      · rintro ⟨h1, h2, h3, h4⟩
        refine ⟨by omega, by omega, h3, ?_⟩
        intro u hu1 hu2
        rcases Nat.eq_or_lt_of_le hu1 with rfl | hlt
        · exact hfit
        · exact h4 u (by omega) hu2
      · rintro ⟨h1, h2, h3, h4⟩
        have hvw : v ≠ w := by
          rintro rfl
          exact hfit h3
        exact ⟨by omega, by omega, h3, fun u hu1 hu2 => h4 u (by omega) hu2⟩

/-- The loop raises the does-not-fit error exactly when no version in its
window fits the data. -/
theorem pick_loop_raise_iff (cap : DataCapacity) (error : ErrorLevel) (mode : Mode)
    (data : List Char)
    (hascii : mode = Mode.binary → ∀ c ∈ data, c.toNat < 128) :
    ∀ fuel v, pick_best_fit_loop cap error mode data fuel v =
        PyResult.raise QRErr.contentTooLarge ↔
      ∀ u, v ≤ u → u < v + fuel → ¬ data.length ≤ cap u error mode := by
  intro fuel
  induction fuel with
  | zero =>
    intro v
    simp only [pick_best_fit_loop]
    constructor
    · intro _ u h1 h2
      exact absurd h2 (by omega)
    · intro _
      trivial
  | succ n ih =>
    intro v
    by_cases hfit : data.length ≤ cap v error mode
    · rw [pick_loop_step_val cap error mode data n v hascii hfit]
      constructor
      · intro h
        exact PyResult.noConfusion h
      · intro hall
        exact absurd hfit (hall v (Nat.le_refl v) (by omega))
    · rw [pick_loop_step_next cap error mode data n v hascii hfit]
      rw [ih (v + 1)]
      constructor
      · intro hall u h1 h2
        rcases Nat.eq_or_lt_of_le h1 with rfl | hlt
        · exact hfit
        · exact hall u (by omega) (by omega)
      · intro hall u h1 h2
        exact hall u (by omega) (by omega)

/-- Whatever version the loop returns is at least its starting version
(no ASCII hypothesis needed). -/
theorem pick_loop_val_ge (cap : DataCapacity) (error : ErrorLevel) (mode : Mode)
    (data : List Char) :
    ∀ fuel v w, pick_best_fit_loop cap error mode data fuel v = PyResult.val w → v ≤ w := by
  intro fuel
  induction fuel with
  | zero =>
    intro v w h
    exact PyResult.noConfusion h
  | succ n ih =>
    intro v w h
    rw [pick_best_fit_loop] at h
    cases hfc : fit_check cap error mode data v with
    | raise e =>
      rw [hfc] at h
      exact PyResult.noConfusion h
    | val b =>
      rw [hfc] at h
      cases b with
      | true =>
        simp only [PyResult.val.injEq] at h
        omega
      | false =>
        have := ih (v + 1) w h
        omega

theorem payloadLength_eq (mode : Mode) (data : List Char)
    (hascii : mode = Mode.binary → ∀ c ∈ data, c.toNat < 128) :
    payloadLength mode data = data.length := by
  cases mode with
  | binary =>
    simp only [payloadLength, asciiEncode_val data (hascii rfl), List.length_map]
  | numeric => rfl
  | alphanumeric => rfl
  | kanji => rfl

end PyQR

namespace PyQR

/-! The claims. -/

/-- C1: the claim says detection returns numeric for content parseable as a
non-negative integer.  The code cannot: the `int(content)` test of
`_detect_content_type` evaluates the name `content`, which is not in scope
inside the method, so it raises `NameError`, which the bare `except:`
swallows — the numeric branch is dead.  On `QRCode(123456789012345)` the code
therefore detects alphanumeric, while the spec-intended detection (and the
method's own docstring) gives numeric. -/
theorem C1_detect_numeric_bug :
    detect_content_type ("123456789012345".toList) = Mode.alphanumeric
  ∧ detect_content_type ("123456789012345".toList) ≠ Mode.numeric
  ∧ detect_content_type_spec ("123456789012345".toList) = Mode.numeric := by
  refine ⟨by decide, by decide, by decide⟩

/-- C2: for every capacity table, error level, mode and content (whose ASCII
encoding exists when the mode is binary, so that "the byte length of the
encoded content" is defined), `_pick_best_fit` returns v exactly when v is the
smallest version in 1..40 whose capacity is at least the payload length —
byte length of the encoded content for binary mode, character count
otherwise — and raises the does-not-fit (ContentTooLarge) error exactly when
no version 1..40 has sufficient capacity. -/
theorem C2_version_selection (cap : DataCapacity) (error : ErrorLevel) (mode : Mode)
    (data : List Char)
    (hascii : mode = Mode.binary → ∀ c ∈ data, c.toNat < 128) :
    (∀ v : Nat, pick_best_fit cap error mode data = PyResult.val v ↔
      (1 ≤ v ∧ v ≤ 40 ∧ payloadLength mode data ≤ cap v error mode ∧
        ∀ w : Nat, 1 ≤ w → w < v → cap w error mode < payloadLength mode data))
  ∧ (pick_best_fit cap error mode data = PyResult.raise QRErr.contentTooLarge ↔
      ∀ v : Nat, 1 ≤ v → v ≤ 40 → cap v error mode < payloadLength mode data) := by
  rw [payloadLength_eq mode data hascii]
  unfold pick_best_fit
  constructor
  · intro v
    rw [pick_loop_val_iff cap error mode data hascii 40 1 v]
    constructor
    · rintro ⟨h1, h2, h3, h4⟩
      exact ⟨h1, by omega, h3, fun w hw1 hw2 => Nat.lt_of_not_le (h4 w hw1 hw2)⟩
    · rintro ⟨h1, h2, h3, h4⟩
      exact ⟨h1, by omega, h3, fun u hu1 hu2 => Nat.not_le_of_lt (h4 u hu1 hu2)⟩
  · rw [pick_loop_raise_iff cap error mode data hascii 40 1]
    constructor
    · intro hall v h1 h2
      exact Nat.lt_of_not_le (hall v h1 (by omega))
    · intro hall u h1 h2
      exact Nat.not_le_of_lt (hall u h1 (by omega))

/-- C2 witness: at the sample capacity table, error H, alphanumeric content
"AB", the selected version is 1. -/
theorem C2_version_selection_witness :
    pick_best_fit sampleCap ErrorLevel.H Mode.alphanumeric ('A' :: 'B' :: []) =
      PyResult.val 1 :=
  ((C2_version_selection sampleCap ErrorLevel.H Mode.alphanumeric ('A' :: 'B' :: [])
      (fun h => nomatch h)).1 1).mpr
    ⟨Nat.le_refl 1, by omega, by decide, fun w h1 h2 => absurd h2 (by omega)⟩

/-- C3: explicit mode numeric is rejected with the mode-mismatch error for
every content whose detected type is not numeric; every explicit non-binary
mode is rejected with the mode-mismatch error for binary-detected content;
explicit mode binary is always accepted by the mode validation; in
particular `QRCode("Hi", mode='numeric')` raises the mode-mismatch error. -/
theorem C3_mode_mismatch :
    (∀ (cap : DataCapacity) (content : List Char) (error : ErrorLevel) (version : Option Int),
      detect_content_type content ≠ Mode.numeric →
      QRCode.make cap content error version (some Mode.numeric) =
        PyResult.raise QRErr.modeMismatch)
  ∧ (∀ (cap : DataCapacity) (content : List Char) (error : ErrorLevel) (version : Option Int)
        (m : Mode),
      detect_content_type content = Mode.binary → m ≠ Mode.binary →
      QRCode.make cap content error version (some m) = PyResult.raise QRErr.modeMismatch)
  ∧ (∀ g : Mode, validateMode g (some Mode.binary) = PyResult.val Mode.binary)
  ∧ QRCode.init sampleCap ("Hi".toList) ('H' :: []) none (some Mode.numeric) =
      PyResult.raise QRErr.modeMismatch := by
  refine ⟨?_, ?_, ?_, by decide⟩
  · intro cap content error version hne
    have hv : validateMode (detect_content_type content) (some Mode.numeric) =
        PyResult.raise QRErr.modeMismatch := by
      rcases detect_cases content with h | h <;> rw [h] <;> rfl
    simp only [QRCode.make, hv]
  · intro cap content error version m hbin hm
    have hv : validateMode (detect_content_type content) (some m) =
        PyResult.raise QRErr.modeMismatch := by
      rw [hbin]
      cases m with
      | binary => exact absurd rfl hm
      | numeric => rfl
      | alphanumeric => rfl
      | kanji => rfl
    simp only [QRCode.make, hv]
  · intro g
    cases g <;> rfl

/-- C3 witness: "Hi" is detected alphanumeric, so explicit numeric mode is a
mode mismatch. -/
theorem C3_mode_mismatch_witness :
    QRCode.make sampleCap ("Hi".toList) ErrorLevel.H none (some Mode.numeric) =
      PyResult.raise QRErr.modeMismatch :=
  C3_mode_mismatch.1 sampleCap ("Hi".toList) ErrorLevel.H none (by decide)

/-- C4 counterexample: the claim says mode kanji fails with the
unimplemented-mode error for every content, but for binary-detected content
("ab!", since '!' is outside the alphanumeric table) the constructor raises
the mode-mismatch error instead, in the mode-compatibility check that runs
before the builder is ever reached. -/
theorem C4_counterexample :
    QRCode.make sampleCap ("ab!".toList) ErrorLevel.H none (some Mode.kanji) =
      PyResult.raise QRErr.modeMismatch
  ∧ QRCode.make sampleCap ("ab!".toList) ErrorLevel.H none (some Mode.kanji) ≠
      PyResult.raise QRErr.unimplementedMode := by
  refine ⟨by decide, by decide⟩

/-- C4 (amended): for content not detected as binary whose kanji version
selection succeeds, explicit mode kanji fails with the unimplemented-mode
error (raised by the builder); for binary-detected content it fails with the
mode-mismatch error instead; in particular `QRCode("abc", mode='kanji')`
raises the unimplemented-mode error. -/
theorem C4_kanji_unimplemented :
    (∀ (cap : DataCapacity) (content : List Char) (error : ErrorLevel) (minV : Nat),
      detect_content_type content ≠ Mode.binary →
      pick_best_fit cap error Mode.kanji content = PyResult.val minV →
      QRCode.make cap content error none (some Mode.kanji) =
        PyResult.raise QRErr.unimplementedMode)
  ∧ (∀ (cap : DataCapacity) (content : List Char) (error : ErrorLevel) (version : Option Int),
      detect_content_type content = Mode.binary →
      QRCode.make cap content error version (some Mode.kanji) =
        PyResult.raise QRErr.modeMismatch)
  ∧ QRCode.init sampleCap ("abc".toList) ('H' :: []) none (some Mode.kanji) =
      PyResult.raise QRErr.unimplementedMode := by
  refine ⟨?_, ?_, by decide⟩
  · intro cap content error minV hne hfit
    have hdet : detect_content_type content = Mode.alphanumeric := by
      rcases detect_cases content with h | h
      · exact h
      · exact absurd h hne
    have hv : validateMode (detect_content_type content) (some Mode.kanji) =
        PyResult.val Mode.kanji := by
      rw [hdet]
      decide
    simp only [QRCode.make, hv, hfit]
    rfl
  · intro cap content error version hbin
    have hv : validateMode (detect_content_type content) (some Mode.kanji) =
        PyResult.raise QRErr.modeMismatch := by
      rw [hbin]
      decide
    simp only [QRCode.make, hv]

/-- C4 witness: "abc" is detected alphanumeric and fits version 1 of the
sample table, so explicit kanji mode reaches the builder and fails as
unimplemented. -/
theorem C4_kanji_unimplemented_witness :
    QRCode.make sampleCap ("abc".toList) ErrorLevel.H none (some Mode.kanji) =
      PyResult.raise QRErr.unimplementedMode :=
  C4_kanji_unimplemented.1 sampleCap ("abc".toList) ErrorLevel.H 1 (by decide) (by decide)

end PyQR

namespace PyQR

/-- C5 counterexample: the claim quantifies over every supplied version, but
a supplied version of 0 — below the computed minimum 1 for content "A" — does
not raise the user-version-too-small error: Python's `if version:` treats 0
as unsupplied and the construction succeeds with the computed version. -/
theorem C5_counterexample :
    pick_best_fit sampleCap ErrorLevel.H Mode.alphanumeric ('A' :: []) = PyResult.val 1
  ∧ QRCode.make sampleCap ('A' :: []) ErrorLevel.H (some 0) none =
      PyResult.val ⟨1, Mode.alphanumeric, ErrorLevel.H⟩
  ∧ QRCode.make sampleCap ('A' :: []) ErrorLevel.H (some 0) none ≠
      PyResult.raise QRErr.userVersionTooSmall := by
  refine ⟨by decide, by decide, by decide⟩

/-- C5 (amended): for every construction where the user supplies a nonzero
version: if the supplied version is at least the computed minimum it becomes
the symbol's version; if it is below the computed minimum the constructor
fails with the user-version-too-small error.  (A supplied version of 0 is
Python-falsy and is silently treated as unsupplied.) -/
theorem C5_user_version (cap : DataCapacity) (content : List Char) (error : ErrorLevel)
    (minV : Nat) (v : Int) (hv : v ≠ 0)
    (hmin : pick_best_fit cap error (detect_content_type content) content =
      PyResult.val minV) :
    ((minV : Int) ≤ v →
      QRCode.make cap content error (some v) none =
        PyResult.val ⟨v, detect_content_type content, error⟩)
  ∧ (v < (minV : Int) →
      QRCode.make cap content error (some v) none =
        PyResult.raise QRErr.userVersionTooSmall) := by
  have hb : builder_accepts (detect_content_type content) = PyResult.val () := by
    rcases detect_cases content with h | h <;> rw [h] <;> rfl
  constructor
  · intro hle
    have hr : resolveVersion minV (some v) = PyResult.val v := by
      simp only [resolveVersion]
      rw [if_pos hv, if_pos hle]
    simp only [QRCode.make, validateMode, hmin, hr, hb]
  · intro hlt
    have hr : resolveVersion minV (some v) = PyResult.raise QRErr.userVersionTooSmall := by
      simp only [resolveVersion]
      rw [if_pos hv, if_neg (by omega)]
    simp only [QRCode.make, validateMode, hmin, hr]

/-- C5 witness: with the sample table, "A" has computed minimum 1, so version
3 is accepted and stored; the 15-character "HELLOWORLDHELLO" has computed
minimum 2, so version 1 raises the user-version-too-small error. -/
theorem C5_user_version_witness :
    QRCode.make sampleCap ('A' :: []) ErrorLevel.H (some 3) none =
      PyResult.val ⟨3, Mode.alphanumeric, ErrorLevel.H⟩
  ∧ QRCode.make sampleCap ("HELLOWORLDHELLO".toList) ErrorLevel.H (some 1) none =
      PyResult.raise QRErr.userVersionTooSmall :=
  ⟨(C5_user_version sampleCap ('A' :: []) ErrorLevel.H 1 3 (by decide) (by decide)).1
      (by decide),
   (C5_user_version sampleCap ("HELLOWORLDHELLO".toList) ErrorLevel.H 2 1 (by decide)
      (by decide)).2 (by decide)⟩

/-- C6: the error argument is accepted case-insensitively as L/M/Q/H, and the
percentages 7/15/25/30 (whose `str()` form reaches the lookup) and the
strings "7%"/"15%"/"25%"/"30%" are accepted aliases; any argument that is not
an alias raises the invalid-error-level error before any other work — for
every content, version and mode argument. -/
theorem C6_error_level_aliases :
    (error_level_lookup ('L' :: []) = PyResult.val ErrorLevel.L ∧
     error_level_lookup ('l' :: []) = PyResult.val ErrorLevel.L ∧
     error_level_lookup ('M' :: []) = PyResult.val ErrorLevel.M ∧
     error_level_lookup ('m' :: []) = PyResult.val ErrorLevel.M ∧
     error_level_lookup ('Q' :: []) = PyResult.val ErrorLevel.Q ∧
     error_level_lookup ('q' :: []) = PyResult.val ErrorLevel.Q ∧
     error_level_lookup ('H' :: []) = PyResult.val ErrorLevel.H ∧
     error_level_lookup ('h' :: []) = PyResult.val ErrorLevel.H ∧
     error_level_lookup ('7' :: []) = PyResult.val ErrorLevel.L ∧
     error_level_lookup ('1' :: '5' :: []) = PyResult.val ErrorLevel.M ∧
     error_level_lookup ('2' :: '5' :: []) = PyResult.val ErrorLevel.Q ∧
     error_level_lookup ('3' :: '0' :: []) = PyResult.val ErrorLevel.H ∧
     error_level_lookup ('7' :: '%' :: []) = PyResult.val ErrorLevel.L ∧
     error_level_lookup ('1' :: '5' :: '%' :: []) = PyResult.val ErrorLevel.M ∧
     error_level_lookup ('2' :: '5' :: '%' :: []) = PyResult.val ErrorLevel.Q ∧
     error_level_lookup ('3' :: '0' :: '%' :: []) = PyResult.val ErrorLevel.H)
  ∧ (∀ (cap : DataCapacity) (content : List Char) (version : Option Int)
        (mode : Option Mode) (errorArg : List Char),
      error_level_lookup errorArg = PyResult.raise QRErr.invalidErrorLevel →
      QRCode.init cap content errorArg version mode =
        PyResult.raise QRErr.invalidErrorLevel) := by
  constructor
  · decide
  · intro cap content version mode errorArg h
    simp only [QRCode.init, h]

/-- C6 witness: "Z" is not an alias, so construction fails with the
invalid-error-level error regardless of the other arguments. -/
theorem C6_error_level_aliases_witness :
    QRCode.init sampleCap ('A' :: []) ('Z' :: []) none none =
      PyResult.raise QRErr.invalidErrorLevel :=
  C6_error_level_aliases.2 sampleCap ('A' :: []) none none ('Z' :: []) (by decide)

/-- C7: the claim says `text()` returns the N-row "1"/"0" string.  The method
body calls `builder._text(self.code)` but has no `return` statement, so the
Python method returns `None` for every code, while the collaborator it calls
does produce the claimed newline-separated row string (shown on a concrete
2-row matrix). -/
theorem C7_text_returns_none :
    (∀ code : List (List Bool), QRCode.textMethod code = none)
  ∧ builder_text ((true :: false :: []) :: (false :: true :: []) :: []) = "10\n01".toList
  ∧ QRCode.textMethod ((true :: false :: []) :: (false :: true :: []) :: []) = none := by
  refine ⟨fun code => rfl, by decide, rfl⟩

/-- C8: for the empty content, the alphanumeric membership test is vacuously
true, so the detected type is alphanumeric; version selection returns 1 for
every capacity table (capacity is a natural number, hence at least the zero
payload length), and construction succeeds. -/
theorem C8_empty_content (cap : DataCapacity) (error : ErrorLevel) :
    detect_content_type [] = Mode.alphanumeric
  ∧ pick_best_fit cap error Mode.alphanumeric [] = PyResult.val 1
  ∧ QRCode.make cap [] error none none = PyResult.val ⟨1, Mode.alphanumeric, error⟩ := by
  have h1 : pick_best_fit cap error Mode.alphanumeric [] = PyResult.val 1 := by
    unfold pick_best_fit
    rw [pick_loop_val_iff cap error Mode.alphanumeric [] (fun h => nomatch h) 40 1 1]
    exact ⟨Nat.le_refl 1, by omega, Nat.zero_le _, fun u hu1 hu2 => absurd hu2 (by omega)⟩
  have hd : detect_content_type [] = Mode.alphanumeric := rfl
  refine ⟨hd, h1, ?_⟩
  simp only [QRCode.make, validateMode, hd, h1, resolveVersion, builder_accepts]
  rfl

/-- C9: for every binary-mode construction whose content has a character
outside ASCII, version selection evaluates `data.encode('ascii')`, which
raises `UnicodeEncodeError` — not one of the documented error kinds — instead
of computing a UTF-8 byte length; for every capacity table, error level and
version argument, both when binary mode is explicit and when binary is the
detected type.  (The detected-binary case takes the detection outcome as a
hypothesis: a non-ASCII character alone does not force binary detection,
since Python's full-Unicode `upper` can map some non-ASCII characters into
the alphanumeric table.) -/
theorem C9_nonascii_binary (cap : DataCapacity) (content : List Char) (error : ErrorLevel)
    (version : Option Int) (h : ∃ c ∈ content, 128 ≤ c.toNat) :
    QRCode.make cap content error version (some Mode.binary) =
      PyResult.raise QRErr.unicodeEncodeError
  ∧ (detect_content_type content = Mode.binary →
      QRCode.make cap content error version none =
        PyResult.raise QRErr.unicodeEncodeError) := by
  have hfc : fit_check cap error Mode.binary content 1 =
      PyResult.raise QRErr.unicodeEncodeError := by
    simp only [fit_check]
    rw [if_pos trivial, asciiEncode_raise content h]
  have hpick : pick_best_fit cap error Mode.binary content =
      PyResult.raise QRErr.unicodeEncodeError := by
    unfold pick_best_fit
    rw [show (40 : Nat) = 39 + 1 from rfl]
    simp only [pick_best_fit_loop, hfc]
  constructor
  · have hv : validateMode (detect_content_type content) (some Mode.binary) =
        PyResult.val Mode.binary := by
      rcases detect_cases content with hh | hh <;> rw [hh] <;> decide
    simp only [QRCode.make, hv, hpick]
  · intro hdet
    simp only [QRCode.make, validateMode, hdet, hpick]

/-- C9 witness: the single character 'é' (codepoint 233, uppercased to 'É' by
Python, outside the alphanumeric table, hence detected binary) triggers the
encoding error in both the explicit-binary and the detected-binary case. -/
theorem C9_nonascii_binary_witness :
    QRCode.make sampleCap ('é' :: []) ErrorLevel.H none (some Mode.binary) =
      PyResult.raise QRErr.unicodeEncodeError
  ∧ QRCode.make sampleCap ('é' :: []) ErrorLevel.H none none =
      PyResult.raise QRErr.unicodeEncodeError :=
  ⟨(C9_nonascii_binary sampleCap ('é' :: []) ErrorLevel.H none (by decide)).1,
   (C9_nonascii_binary sampleCap ('é' :: []) ErrorLevel.H none (by decide)).2 (by decide)⟩

/-- C10: the constructor performs no upper-bound check on the user-supplied
version: every integer at least the computed minimum — including values above
40 — is accepted and stored as the symbol's version; and a supplied version
of 0 is silently ignored (the computed minimum is used) rather than
rejected. -/
theorem C10_version_unchecked (cap : DataCapacity) (content : List Char)
    (error : ErrorLevel) (minV : Nat)
    (hmin : pick_best_fit cap error (detect_content_type content) content =
      PyResult.val minV) :
    (∀ v : Int, (minV : Int) ≤ v →
      QRCode.make cap content error (some v) none =
        PyResult.val ⟨v, detect_content_type content, error⟩)
  ∧ QRCode.make cap content error (some 0) none =
      PyResult.val ⟨(minV : Int), detect_content_type content, error⟩ := by
  have hb : builder_accepts (detect_content_type content) = PyResult.val () := by
    rcases detect_cases content with h | h <;> rw [h] <;> rfl
  have hone : 1 ≤ minV :=
    pick_loop_val_ge cap error (detect_content_type content) content 40 1 minV hmin
  constructor
  · intro v hle
    have hv0 : v ≠ 0 := by omega
    have hr : resolveVersion minV (some v) = PyResult.val v := by
      simp only [resolveVersion]
      rw [if_pos hv0, if_pos hle]
    simp only [QRCode.make, validateMode, hmin, hr, hb]
  · have hr : resolveVersion minV (some 0) = PyResult.val (minV : Int) := by
      simp only [resolveVersion]
      rw [if_neg (fun hc => hc rfl)]
    simp only [QRCode.make, validateMode, hmin, hr, hb]

/-- C10 witness: for "A" (computed minimum 1) version 99 — far above 40 — is
accepted and stored, and version 0 is ignored in favour of the minimum. -/
theorem C10_version_unchecked_witness :
    QRCode.make sampleCap ('A' :: []) ErrorLevel.H (some 99) none =
      PyResult.val ⟨99, Mode.alphanumeric, ErrorLevel.H⟩
  ∧ QRCode.make sampleCap ('A' :: []) ErrorLevel.H (some 0) none =
      PyResult.val ⟨1, Mode.alphanumeric, ErrorLevel.H⟩ :=
  ⟨(C10_version_unchecked sampleCap ('A' :: []) ErrorLevel.H 1 (by decide)).1 99
      (by decide),
   (C10_version_unchecked sampleCap ('A' :: []) ErrorLevel.H 1 (by decide)).2⟩

end PyQR
